import Mathlib

/-!
# Verification of the credential-and-authentication engine of `sync-repositories`

A shallow embedding of the credential store (`credentials/keyring.py`),
the askpass credential relay (`credentials/auto_askpass.py` and
`sync_repositories/credentials/auto_askpass.py`), the authentication
requirement checkers (`repository/git.py`, `repository/subversion.py`),
and the orchestrator loops of `__main__.py`.

Conventions of the embedding:
* The secret-service collection is a list of items, each carrying a label,
  an attribute record and an opaque secret string.  `search_items` keeps
  the items whose attributes agree with every key given in the query
  (keys absent from the query are unconstrained), in collection order.
  `create_item` with `replace=True` drops the items whose attribute record
  equals the new one exactly, then appends the new item.
* Python exceptions are modelled by `Except PyError`.
* `str(port)` is applied at the call boundary: the store operations
  receive the port already serialized as a string.
* Python truthiness of optional strings (`if objname:`) is `pyTruthy`.
-/

/-- Python truthiness of an optional string: `None` and `''` are falsy. -/
def pyTruthy : Option String → Bool
  | none => false
  | some s => s ≠ ""

/-- The first line of a file's content, as `f.readline()` reads it but
without the trailing newline (which `.rstrip()` removes anyway). -/
def firstLine (s : String) : String :=
  ⟨s.toList.takeWhile (· ≠ '\n')⟩

/-- Python `str.rstrip()`: drop trailing whitespace. -/
def pyRstrip (s : String) : String :=
  ⟨(s.toList.reverse.dropWhile Char.isWhitespace).reverse⟩

/-- The marker-file content as `execute` computes it:
`f.readline().rstrip()`. -/
def markerContent (s : String) : String :=
  pyRstrip (firstLine s)

/-- Python `needle in haystack` on strings (substring containment). -/
def pyContains (haystack needle : String) : Bool :=
  (List.range (haystack.toList.length + 1)).any
    (fun i => needle.toList.isPrefixOf (haystack.toList.drop i))

/-- Python `str.endswith`. -/
def pyEndsWith (s suffix : String) : Bool :=
  suffix.toList.isSuffixOf s.toList

/-- The Python exceptions the embedded code can raise. -/
inductive PyError where
  /-- `KeyError` -/
  | keyError (msg : String)
  /-- `TypeError` -/
  | typeError (msg : String)
  /-- `ValueError` -/
  | valueError (msg : String)
  /-- `FileNotFoundError` (`open` on a missing path) -/
  | fileNotFound (path : String)
  /-- `subprocess.CalledProcessError`: return code, command, combined output -/
  | calledProcessError (returncode : Int) (cmd : List String) (output : String)
  deriving DecidableEq, Repr

/-- The attribute record of a secret-service item.  The embedded code only
ever uses the keys `xdg:schema`, `authtype`, `application`, `protocol`,
`server`, `port`, `user` and `object`; a `none` field models an absent key.
In a search query a `none` field is an unconstrained key. -/
structure Attrs where
  schema : Option String := none
  authtype : Option String := none
  application : Option String := none
  protocol : Option String := none
  server : Option String := none
  port : Option String := none
  user : Option String := none
  object : Option String := none
  deriving DecidableEq, Repr

/-- Does the item attribute record `a` satisfy the search query `q`?
Every key present in `q` must be present in `a` with the same value. -/
def attrsMatch (a q : Attrs) : Bool :=
  (q.schema.all (fun v => a.schema = some v)) &&
  (q.authtype.all (fun v => a.authtype = some v)) &&
  (q.application.all (fun v => a.application = some v)) &&
  (q.protocol.all (fun v => a.protocol = some v)) &&
  (q.server.all (fun v => a.server = some v)) &&
  (q.port.all (fun v => a.port = some v)) &&
  (q.user.all (fun v => a.user = some v)) &&
  (q.object.all (fun v => a.object = some v))

/-- One stored secret-service item. -/
structure Item where
  label : String
  attrs : Attrs
  secret : String
  deriving DecidableEq, Repr

/-- The secret-service collection, in creation order. -/
abbrev Collection := List Item

/-- `collection.search_items(attrs)`: the stored items matching the query,
in collection order. -/
def search_items (c : Collection) (q : Attrs) : List Item :=
  c.filter (fun i => attrsMatch i.attrs q)

/-- `collection.create_item(label, attrs, secret, replace=True)`: replace
the items carrying exactly the same attribute record, appending the fresh
item. -/
def create_item (c : Collection) (label : String) (attrs : Attrs)
    (secret : String) : Collection :=
  c.filter (fun i => i.attrs ≠ attrs) ++ [⟨label, attrs, secret⟩]

namespace SecretStorage

/-- The attribute dictionary built for authentication-fact notes, used both
when storing (`_store_authentication_bool`) and when searching
(`get_credentials`, first phase): schema `Note`, the application constant,
`protocol`, `server`, `port`, and `object` only when `objname` is truthy. -/
def noteAttrs (protocol server port : String) (objname : Option String) :
    Attrs :=
  { schema := some "org.gnome.keyring.Note",
    application := some "whisperity/sync-repositories",
    protocol := some protocol,
    server := some server,
    port := some port,
    object := if pyTruthy objname then objname else none }

/-- The attribute dictionary `set_credential` and `delete_credential` build
(schema `NetworkPassword`, authtype, application, identity fields and the
`user` key). -/
def credAttrs (protocol server port user : String) (objname : Option String) :
    Attrs :=
  { schema := some "org.gnome.keyring.NetworkPassword",
    authtype := some "username-password",
    application := some "whisperity/sync-repositories",
    protocol := some protocol,
    server := some server,
    port := some port,
    user := some user,
    object := if pyTruthy objname then objname else none }

/-- The credential search query of `get_credentials` (no `user` key). -/
def credQuery (protocol server port : String) (objname : Option String) :
    Attrs :=
  { schema := some "org.gnome.keyring.NetworkPassword",
    authtype := some "username-password",
    application := some "whisperity/sync-repositories",
    protocol := some protocol,
    server := some server,
    port := some port,
    object := if pyTruthy objname then objname else none }

/-- Result of `SecretStorage.get_credentials`: `unknown` is Python `None`,
`notRequired` is Python `False`, `creds` is the list of
`(username, password)` pairs (possibly empty). -/
inductive GetCredentialsResult where
  | unknown
  | notRequired
  | creds (l : List (String × String))
  deriving DecidableEq, Repr

/-- `SecretStorage.get_credentials(protocol, server, port, objname)`:
look up the authentication-fact note first (`None` when absent, `False`
when the note's secret is the literal `'False'`), then collect the
matching credential items as `(user, secret)` pairs. -/
def get_credentials (c : Collection) (protocol server port : String)
    (objname : Option String := none) : GetCredentialsResult :=
  match (search_items c (noteAttrs protocol server port objname)).head? with
  | none => .unknown
  | some note =>
    if note.secret = "False" then .notRequired
    else
      .creds ((search_items c (credQuery protocol server port objname)).map
        -- Matching credential items always carry the `user` attribute,
        -- because only `set_credential` creates items of this schema.
        (fun i => (i.attrs.user.getD "", i.secret)))

/-- Python `str` on an optional string (`str(objname)`). -/
def pyStrOpt : Option String → String
  | none => "None"
  | some s => s

/-- The fact-note item `_store_authentication_bool` creates (its label,
attributes and serialized boolean payload). -/
def noteItemOf (protocol server port : String) (objname : Option String)
    (is_authenticating : Bool) : Item :=
  { label := "Is '" ++ server ++ ":" ++ port ++ "/" ++ pyStrOpt objname
      ++ "' for '" ++ protocol ++ "' authenticating?",
    attrs := noteAttrs protocol server port objname,
    secret := if is_authenticating then "True" else "False" }

/-- `SecretStorage._store_authentication_bool`: store the fact note, the
boolean serialized as the literal strings `True` / `False`. -/
def _store_authentication_bool (c : Collection) (protocol server port : String)
    (objname : Option String) (is_authenticating : Bool) : Collection :=
  create_item c
    (noteItemOf protocol server port objname is_authenticating).label
    (noteAttrs protocol server port objname)
    (if is_authenticating then "True" else "False")

/-- `SecretStorage._set_authenticating`. -/
def _set_authenticating (c : Collection) (protocol server port : String)
    (objname : Option String := none) : Collection :=
  _store_authentication_bool c protocol server port objname true

/-- `SecretStorage.set_unauthenticated`. -/
def set_unauthenticated (c : Collection) (protocol server port : String)
    (objname : Option String := none) : Collection :=
  _store_authentication_bool c protocol server port objname false

/-- The label `set_credential` attaches: the given one when truthy
(`if not label:`), the default otherwise. -/
def credLabel (protocol server user : String) (label : Option String) :
    String :=
  match label with
  | some l => if l ≠ "" then l
      else protocol ++ " password for '" ++ user ++ "' on '" ++ server ++ "'"
  | none => protocol ++ " password for '" ++ user ++ "' on '" ++ server ++ "'"

/-- The credential item `set_credential` creates. -/
def credItemOf (protocol server port user password : String)
    (objname label : Option String) : Item :=
  { label := credLabel protocol server user label,
    attrs := credAttrs protocol server port user objname,
    secret := password }

/-- `SecretStorage.set_credential(protocol, server, port, user, password,
objname, label)`: upsert the credential item, then mark the identity as
authenticating. -/
def set_credential (c : Collection) (protocol server port user password : String)
    (objname : Option String := none) (label : Option String := none) :
    Collection :=
  let c := create_item c
    (credItemOf protocol server port user password objname label).label
    (credAttrs protocol server port user objname)
    password
  _set_authenticating c protocol server port objname

/-- `SecretStorage.delete_credential`: search the matching credential
items, materialize the iterator into a list, raise `KeyError` when the
list is empty — and otherwise apply `next()` to the *list*, which in
Python 3 raises `TypeError` (a list is not an iterator), before any
`delete()` happens. -/
def delete_credential (c : Collection) (protocol server port user : String)
    (objname : Option String := none) : Except PyError Collection :=
  match search_items c (credAttrs protocol server port user objname) with
  | [] => .error (.keyError
      ("No secret found for " ++ protocol ++ ":" ++ server ++ ":" ++ port
        ++ ":" ++ user))
  | _ :: _ => .error (.typeError "'list' object is not an iterator")

/-- The credential search of `delete_server` (note: it carries no
`xdg:schema` key in the source). -/
def serverCredQuery (protocol server port : String) : Attrs :=
  { authtype := some "username-password",
    application := some "whisperity/sync-repositories",
    protocol := some protocol,
    server := some server,
    port := some port }

/-- The note search of `delete_server`. -/
def serverNoteQuery (protocol server port : String) : Attrs :=
  { schema := some "org.gnome.keyring.Note",
    application := some "whisperity/sync-repositories",
    protocol := some protocol,
    server := some server,
    port := some port }

/-- `SecretStorage.delete_server`: delete every matching credential item,
then every matching fact note, for the whole `(protocol, server, port)`. -/
def delete_server (c : Collection) (protocol server port : String) :
    Collection :=
  let c := c.filter
    (fun i => ¬ attrsMatch i.attrs (serverCredQuery protocol server port))
  c.filter
    (fun i => ¬ attrsMatch i.attrs (serverNoteQuery protocol server port))

/-- Modelled from the spec: `sync_repositories/credentials/keyring.py` is
not under `src/`, yet `__main__.py` calls its `is_requiring_authentication`.
Per the spec's data model (section 3, "Authentication Fact", and section 6,
facts are notes whose payload serializes the boolean as `'True'`/`'False'`),
the query mirrors the fact-note phase of `get_credentials`: no note means
the fact is UNKNOWN (`none`), a `'False'` payload means NOT_REQUIRED
(`some false`), anything else means REQUIRED (`some true`). -/
def is_requiring_authentication (c : Collection) (protocol server port : String)
    (objname : Option String := none) : Option Bool :=
  match (search_items c (noteAttrs protocol server port objname)).head? with
  | none => none
  | some note => if note.secret = "False" then some false else some true

/-- Modelled from the spec: `__main__.py` calls `keyring.set_authenticating`,
a public method missing from `src/` (the `src` keyring only has the private
`_set_authenticating`).  Per spec section 4.1 (`setAuthenticated` sets the
Fact independent of any credential) it stores the fact note `True`. -/
def set_authenticating (c : Collection) (protocol server port : String)
    (objname : Option String := none) : Collection :=
  _store_authentication_bool c protocol server port objname true

end SecretStorage

/-! ## The askpass credential relay (`credentials/auto_askpass.py`) -/

/-- The relay environment that `create` (in `credentials/auto_askpass.py`)
sets up: the five `SR_ASKPASS_*` variables are all present (the missing-
variable bail-out branch of `execute` is therefore never taken on an
environment of this shape).  The marker file itself is tracked separately
as an `Option String` (its content, `none` once deleted). -/
structure AskpassEnv where
  protocol : String
  server : String
  port : String
  object : String
  deriving DecidableEq, Repr

/-- What one helper invocation produces: the exact bytes written to
standard output, the `sys.exit` status, and the marker file afterwards
(`none` when unlinked). -/
structure ExecOutcome where
  stdout : String
  exitCode : Int
  marker : Option String
  deriving DecidableEq, Repr

namespace AutoAskpass

open SecretStorage

/-- `credentials/auto_askpass.py: create(protocol, host, port, objname)`:
the relay environment, with the marker file freshly initialized to `'U'`.
(`str(port)` is `toString port`.) -/
def create (protocol host : String) (port : Nat) (objname : String) :
    AskpassEnv × Option String :=
  ({ protocol := protocol, server := host, port := toString port,
     object := objname }, some "U")

/-- `credentials/auto_askpass.py: execute()` over a fully populated relay
environment.  `marker` is the marker file (`none` = missing, in which case
the `open(..., 'r+')` raises `FileNotFoundError`).  The store is only
read, never written, by this version. -/
def execute (c : Collection) (env : AskpassEnv) (marker : Option String) :
    Except PyError ExecOutcome :=
  match get_credentials c env.protocol env.server env.port (some env.object)
  with
  | .creds (cred :: _) =>
    let username := cred.1
    let password := cred.2
    match marker with
    | none => .error (.fileNotFound "SR_ASKPASS_TEMP")
    | some m =>
      let content := markerContent m
      if content = "U" then
        .ok { stdout := username, exitCode := 0, marker := some "P" }
      else if content = "P" then
        .ok { stdout := password, exitCode := 0, marker := none }
      else
        .ok { stdout := "", exitCode := 0, marker := some m }
  | _ =>
    -- `if not credentials:` — `None`, `False` and `[]` are all falsy.
    .ok { stdout := "invalid\n", exitCode := 1, marker := marker }

end AutoAskpass

/-! ## The packaged relay (`sync_repositories/credentials/auto_askpass.py`) -/

/-- The relay environment of the packaged version, which additionally may
carry `SR_ASKPASS_TEMPORARY_CREDENTIAL`. -/
structure AskpassEnv2 where
  protocol : String
  server : String
  port : String
  object : String
  temporaryCredential : Bool := false
  deriving DecidableEq, Repr

/-- Outcome of one invocation of the packaged `execute`, which can also
rewrite the store (deletion of a temporary credential). -/
structure ExecOutcome2 where
  stdout : String
  exitCode : Int
  marker : Option String
  store : Collection
  deriving DecidableEq, Repr

namespace AutoAskpass2

open SecretStorage

/-- `sync_repositories/credentials/auto_askpass.py: create`: the guarded
environment (`protocol if protocol else ''` etc.; `str(port) if port else
'0'` — both branches serialize a `Nat` port the same way), marker file
initialized to `'U'`. -/
def create (protocol host : String) (port : Nat) (objname : String) :
    AskpassEnv2 × Option String :=
  ({ protocol := if protocol ≠ "" then protocol else "",
     server := if host ≠ "" then host else "",
     port := if port ≠ 0 then toString port else "0",
     object := if objname ≠ "" then objname else "",
     temporaryCredential := false }, some "U")

/-- `create_with_credentials(username, password, protocol, host, port,
objname)`: store the pair under the synthetic identity (protocol `temp`,
object suffixed `__TEMP`), then build the relay environment flagged for
post-use deletion.  Returns the new store, the environment and the fresh
marker file. -/
def create_with_credentials (c : Collection) (username password : String)
    (host : String) (port : Nat) (objname : String) :
    Collection × AskpassEnv2 × Option String :=
  let protocol := "temp"
  let objname' := objname ++ "__TEMP"
  let c := set_credential c protocol host (toString port) username password
    (some objname') (some "Temporary password for Sync-Repos ASKPASS")
  let (env, marker) := create protocol host port objname'
  (c, { env with temporaryCredential := true }, marker)

/-- `sync_repositories/credentials/auto_askpass.py: execute()` over a fully
populated relay environment.  Differences from the unpackaged version: an
empty `SR_ASKPASS_OBJECT` becomes `None`, the no-credential bail-out exits
*zero*, and after the final (`'P'`) step a flagged temporary credential's
whole synthetic server entry is deleted from the store. -/
def execute (c : Collection) (env : AskpassEnv2) (marker : Option String) :
    Except PyError ExecOutcome2 :=
  let objname := if env.object = "" then none else some env.object
  match get_credentials c env.protocol env.server env.port objname with
  | .creds (cred :: _) =>
    let username := cred.1
    let password := cred.2
    match marker with
    | none => .error (.fileNotFound "SR_ASKPASS_TEMP")
    | some m =>
      let content := markerContent m
      if content = "U" then
        .ok { stdout := username, exitCode := 0, marker := some "P",
              store := c }
      else if content = "P" then
        let c' :=
          if env.temporaryCredential ∧ env.protocol = "temp" ∧
              objname.isSome ∧
              pyEndsWith (objname.getD "") "__TEMP" then
            delete_server c env.protocol env.server env.port
          else c
        .ok { stdout := password, exitCode := 0, marker := none,
              store := c' }
      else
        .ok { stdout := "", exitCode := 0, marker := some m, store := c }
  | _ =>
    .ok { stdout := "invalid\n", exitCode := 0, marker := marker, store := c }

end AutoAskpass2

/-! ## Authentication requirement checkers (`repository/git.py`,
`repository/subversion.py`) -/

/-- Outcome of one `subprocess.run(..., check=True)` call: the return code
and the combined captured output (`stdout=PIPE`, `stderr=STDOUT`). -/
structure ProcResult where
  returncode : Int
  output : String
  deriving DecidableEq, Repr

/-- The authentication-failure signature both checkers look for in the
captured output. -/
def authFailureSignature : String := "Authentication failed"

/-- The credential state a `UsernamePasswordAuthenticationChecker` holds
after construction: the `_credentials` flag and the two optional fields. -/
structure CheckerCreds where
  credentials : Bool
  username : Option String
  password : Option String
  deriving DecidableEq, Repr

namespace Git

/-- `Git.UsernamePasswordAuthenticationChecker.__init__`'s credential
validation: both `None` → no credentials; both set → credentials; exactly
one set → `ValueError`. -/
def mkUsernamePasswordAuthenticationChecker (username password : Option String) :
    Except PyError CheckerCreds :=
  if username = none ∧ password = none then
    .ok { credentials := false, username := none, password := none }
  else if username ≠ none ∧ password ≠ none then
    .ok { credentials := true, username := username, password := password }
  else
    .error (.valueError
      ("Authentication check for Git HTTP repositories with either both "
        ++ "username and password, or none of it."))

/-- `Git.UsernamePasswordAuthenticationChecker._fun`, as a function of the
probe subprocess outcome: a zero exit is \"no authentication needed\"
(`False`); a `CalledProcessError` whose output contains the signature is
\"authentication needed\" (`True`); any other `CalledProcessError` is
re-raised. -/
def _fun (remote : String) (pr : ProcResult) : Except PyError Bool :=
  if pr.returncode = 0 then .ok false
  else if pyContains pr.output authFailureSignature then .ok true
  else .error (.calledProcessError pr.returncode
    ["git", "remote", "show", remote] pr.output)

/-- `Git.UsernamePasswordWrappingUpdater.update` as a function of the
update subprocess outcome: `True` exactly when the subprocess exited
zero, `False` on `CalledProcessError`. -/
def update (pr : ProcResult) : Bool :=
  pr.returncode = 0

end Git

namespace Subversion

/-- `Subversion.UsernamePasswordAuthenticationChecker.__init__`'s
credential validation. -/
def mkUsernamePasswordAuthenticationChecker (username password : Option String) :
    Except PyError CheckerCreds :=
  if username = none ∧ password = none then
    .ok { credentials := false, username := none, password := none }
  else if username ≠ none ∧ password ≠ none then
    .ok { credentials := true, username := username, password := password }
  else
    .error (.valueError
      ("Authentication check for SVN repositories with either both "
        ++ "username and password, or none of it."))

/-- The probe command `Subversion...._fun` builds (with `--username u
--password p` appended when credentials are held). -/
def probeCommand (creds : Option (String × String)) : List String :=
  ["svn", "log", "--limit", "1", "--no-auth-cache", "--non-interactive"]
    ++ (match creds with
        | none => []
        | some (u, p) => ["--username", u, "--password", p])

/-- The sanitized command (`original_command`) carried by a re-raised
`CalledProcessError`: the password argument pair is not included. -/
def sanitizedCommand (creds : Option (String × String)) : List String :=
  ["svn", "log", "--limit", "1", "--no-auth-cache", "--non-interactive"]
    ++ (match creds with
        | none => []
        | some (u, _) => ["--username", u])

/-- `Subversion.UsernamePasswordAuthenticationChecker._fun` as a function
of the probe subprocess outcome.  Classification is the same as for Git;
the unexpected failure is re-raised as a `CalledProcessError` carrying the
password-free command. -/
def _fun (creds : Option (String × String)) (pr : ProcResult) :
    Except PyError Bool :=
  if pr.returncode = 0 then .ok false
  else if pyContains pr.output authFailureSignature then .ok true
  else .error (.calledProcessError pr.returncode (sanitizedCommand creds)
    pr.output)

/-- `Subversion.UsernamePasswordUpdater.update` as a function of the
update subprocess outcome. -/
def update (pr : ProcResult) : Bool :=
  pr.returncode = 0

end Subversion

/-! ## The update orchestrator (`__main__.py`) -/

namespace Orchestrator

open SecretStorage

/-- The canonical identity tuple a remote resolves to:
`(protocol, server, port, object)`, the port numeric (`0` = unspecified),
the object name optional. -/
structure Identity where
  protocol : String
  server : String
  port : Nat
  objname : Option String
  deriving DecidableEq, Repr

/-- The authentication backend of a remote (`credentials.Backends`); a
remote may also have no backend at all (Python `None`, for the
non-authenticating `git`/`file` protocols). -/
inductive Backend where
  | keyring
  | sshAgent
  deriving DecidableEq, Repr

/-- Everything the per-remote loop body of `__main__.py` consumes for one
remote: its identity, backend, and the outcomes of the external
interactions (the `check()` probe, the interactive prompt, the
`check_credentials()` validation probe).  For username-password transports
`check` and `validate` are the `_fun` classifications of the probe
subprocess. -/
structure RemoteSpec where
  name : String
  url : String
  parts : Identity
  backend : Option Backend
  check : Except PyError Bool
  promptUser : String
  promptPassword : String
  validate : Except PyError Bool
  deriving Repr

/-- The detector `__main__` actually runs for a remote: for non-keyring
backends `get_auth_requirement_detector_for` returns the constant checker
whose `check()` is always `False` (`repository/git.py`, `_cls`). -/
def checkOf (r : RemoteSpec) : Except PyError Bool :=
  if r.backend = some Backend.keyring then r.check else .ok false

/-- Modelled from the spec: the four-argument
`ask_user_for_password(keyring, url, parts, can_be_empty=False)` that
`__main__.py` calls lives in the missing
`sync_repositories/credentials/keyring.py`.  Per spec section 4.4 the
freshly entered credential is persisted to the store (the orchestrator
later deletes \"the just-entered attempt\" on validation failure), and the
pair is returned for validation.  The three-argument `src` analog likewise
ends in `set_credential`. -/
def ask_user_for_password (c : Collection) (parts : Identity)
    (username password : String) : Collection × String × String :=
  (set_credential c parts.protocol parts.server (toString parts.port)
    username password parts.objname, username, password)

/-- What processing one remote in the authentication-check loop of
`__main__.py` produces: the keyring store afterwards, whether the remote
was appended to the repository's update data (`selected`), the final
`can_update` flag, and whether the interactive prompt was reached. -/
structure StepResult where
  keyring : Collection
  selected : Bool
  canUpdate : Bool
  prompted : Bool
  deriving DecidableEq, Repr

/-- The back half of the loop body (from `auth_backend = ...` on):
credential lookup, optional prompt + validation, and the
`if can_update: append` / skip decision.  `needs` is `needs_credentials`
(`none` = Python `None`), `canUpdate` the `can_update` flag so far. -/
def processRemoteBackend (daemon : Bool) (c : Collection) (r : RemoteSpec)
    (needs : Option Bool) (canUpdate : Bool) : Except PyError StepResult :=
  let parts := r.parts
  let portStr := toString parts.port
  if r.backend = some Backend.keyring then
    if needs = some true then
      -- `if needs_credentials:` — truthy only for `True`.
      match get_credentials c parts.protocol parts.server portStr
        parts.objname with
      | .creds (_ :: _) =>
        -- Credentials are stored: `can_update = True`, remote appended.
        .ok { keyring := c, selected := true, canUpdate := true,
              prompted := false }
      | _ =>
        -- `if not credentials_stored:` — `None`, `False`, `[]` falsy.
        if ¬ daemon then
          let (c, u, _p) :=
            ask_user_for_password c parts r.promptUser r.promptPassword
          match r.validate with
          | .error e => .error e  -- `check_credentials()` raising propagates
          | .ok true =>
            .ok { keyring := c, selected := true, canUpdate := true,
                  prompted := true }
          | .ok false =>
            match delete_credential c parts.protocol parts.server portStr u
              parts.objname with
            | .error e => .error e
            | .ok c' =>
              .ok { keyring := c', selected := false, canUpdate := false,
                    prompted := true }
        else
          -- Daemon mode: the user is not asked; `can_update` stays as is.
          .ok { keyring := c, selected := canUpdate, canUpdate := canUpdate,
                prompted := false }
    else
      .ok { keyring := c, selected := canUpdate, canUpdate := canUpdate,
            prompted := false }
  else
    -- The append only happens inside the `auth_backend == KEYRING` branch.
    .ok { keyring := c, selected := false, canUpdate := canUpdate,
          prompted := false }

/-- One iteration of the authentication-check loop of `__main__.py` for
one remote: query the stored Fact; when it is unknown run the detector,
persisting the Fact on a clean classification and catching
`CalledProcessError` (log and `continue`); then hand over to the
backend/credential block. -/
def processRemote (daemon : Bool) (c : Collection) (r : RemoteSpec) :
    Except PyError StepResult :=
  let parts := r.parts
  let portStr := toString parts.port
  match is_requiring_authentication c parts.protocol parts.server portStr
    parts.objname with
  | none =>
    match checkOf r with
    | .error (.calledProcessError _ _ _) =>
      -- `except subprocess.CalledProcessError: print(...); continue`
      .ok { keyring := c, selected := false, canUpdate := false,
            prompted := false }
    | .error e => .error e
    | .ok true =>
      let c := set_authenticating c parts.protocol parts.server portStr
        parts.objname
      processRemoteBackend daemon c r (some true) false
    | .ok false =>
      let c := set_unauthenticated c parts.protocol parts.server portStr
        parts.objname
      processRemoteBackend daemon c r (some false) true
  | some false =>
    processRemoteBackend daemon c r (some false) true
  | some true =>
    processRemoteBackend daemon c r (some true) false

/-- The authentication-check loop over the remotes of one repository:
thread the keyring store through, collecting the selected remotes (the
repository's `repo_data`).  An uncaught exception aborts the whole run. -/
def processRemotes (daemon : Bool) (c : Collection) :
    List RemoteSpec → Except PyError (Collection × List RemoteSpec)
  | [] => .ok (c, [])
  | r :: rest =>
    match processRemote daemon c r with
    | .error e => .error e
    | .ok res =>
      match processRemotes daemon res.keyring rest with
      | .error e => .error e
      | .ok (c', sel) =>
        .ok (c', (if res.selected then [r] else []) ++ sel)

/-- The outer loop over repositories (each a list of remotes): the
selected remotes of each repository, in order. -/
def processRepos (daemon : Bool) (c : Collection) :
    List (List RemoteSpec) → Except PyError (Collection × List (List RemoteSpec))
  | [] => .ok (c, [])
  | repo :: rest =>
    match processRemotes daemon c repo with
    | .error e => .error e
    | .ok (c', sel) =>
      match processRepos daemon c' rest with
      | .error e => .error e
      | .ok (c'', sels) => .ok (c'', sel :: sels)

/-- The per-credential update loop of `__main__.py`:
`update_success = update_success or updater.update()`.  The input list is
the per-credential update-subprocess success, in credential order; Python's
short-circuiting `or` does not invoke `updater.update()` once
`update_success` is already `True`.  Returns the final `update_success`
and how many times `updater.update()` was actually invoked. -/
def updateLoop : List Bool → Bool → Bool × Nat
  | [], s => (s, 0)
  | o :: rest, s =>
    if s then updateLoop rest s
    else
      let r := updateLoop rest o
      (r.1, r.2 + 1)

/-- The update phase of `__main__.py` for one keyring-backend remote:
fetch the stored credentials, fall back to the single empty placeholder
`(None, None)` when the lookup is falsy, and run the per-credential loop.
`outcome` gives, per credential the updater would be built with, whether
that update subprocess would exit zero. -/
def updateRemote (stored : GetCredentialsResult)
    (outcome : Option String × Option String → Bool) : Bool × Nat :=
  let kr_creds : List (Option String × Option String) :=
    match stored with
    | .creds (cred :: rest) =>
      (cred :: rest).map (fun cr => (some cr.1, some cr.2))
    | _ => [(none, none)]
  updateLoop (kr_creds.map outcome) false

end Orchestrator

/-! ## Lemmas about the store model -/

open SecretStorage AutoAskpass2 Orchestrator

theorem opt_all_self (x : Option String) :
    x.all (fun v => decide (x = some v)) = true := by
  cases x <;> simp

theorem attrsMatch_self (a : Attrs) : attrsMatch a a = true := by
  simp [attrsMatch, opt_all_self]

theorem attrsMatch_cred_note (p s pt u : String) (o : Option String)
    (p' s' pt' : String) (o' : Option String) :
    attrsMatch (credAttrs p s pt u o) (noteAttrs p' s' pt' o') = false := by
  simp [attrsMatch, credAttrs, noteAttrs]

theorem attrsMatch_note_credQuery (p s pt : String) (o : Option String)
    (p' s' pt' : String) (o' : Option String) :
    attrsMatch (noteAttrs p s pt o) (credQuery p' s' pt' o') = false := by
  simp [attrsMatch, noteAttrs, credQuery]

theorem attrsMatch_cred_credQuery (p s pt u : String) (o : Option String) :
    attrsMatch (credAttrs p s pt u o) (credQuery p s pt o) = true := by
  cases o with
  | none => simp [attrsMatch, credAttrs, credQuery, pyTruthy]
  | some s' =>
    by_cases h : s' = "" <;>
      simp [attrsMatch, credAttrs, credQuery, pyTruthy, h]

theorem attrsMatch_cred_serverCredQuery (p s pt u : String)
    (o : Option String) :
    attrsMatch (credAttrs p s pt u o) (serverCredQuery p s pt) = true := by
  simp [attrsMatch, credAttrs, serverCredQuery]

theorem attrsMatch_note_serverCredQuery (p s pt : String) (o : Option String)
    (p' s' pt' : String) :
    attrsMatch (noteAttrs p s pt o) (serverCredQuery p' s' pt') = false := by
  simp [attrsMatch, noteAttrs, serverCredQuery]

theorem attrsMatch_note_serverNoteQuery (p s pt : String) (o : Option String) :
    attrsMatch (noteAttrs p s pt o) (serverNoteQuery p s pt) = true := by
  simp [attrsMatch, noteAttrs, serverNoteQuery]

theorem credAttrs_ne_noteAttrs (p s pt u : String) (o : Option String)
    (p' s' pt' : String) (o' : Option String) :
    credAttrs p s pt u o ≠ noteAttrs p' s' pt' o' := by
  intro he
  have h1 := attrsMatch_self (credAttrs p s pt u o)
  nth_rewrite 2 [he] at h1
  rw [attrsMatch_cred_note] at h1
  exact Bool.false_ne_true h1

theorem attrsMatch_protocol {a q : Attrs} {v : String}
    (hq : q.protocol = some v) (h : attrsMatch a q = true) :
    a.protocol = some v := by
  simp only [attrsMatch, Bool.and_eq_true, decide_eq_true_eq] at h
  have hp := h.1.1.1.1.2
  rw [hq] at hp
  simpa using hp

theorem search_items_append (c d : Collection) (q : Attrs) :
    search_items (c ++ d) q = search_items c q ++ search_items d q := by
  simp [search_items, List.filter_append]

theorem search_items_nil_of (c : Collection) (q : Attrs)
    (h : ∀ i ∈ c, attrsMatch i.attrs q = false) : search_items c q = [] := by
  simp only [search_items, List.filter_eq_nil_iff]
  intro i hi
  simp [h i hi]

theorem search_items_filter_nil (c : Collection) (p : Item → Bool) (q : Attrs)
    (h : search_items c q = []) : search_items (c.filter p) q = [] := by
  simp only [search_items, List.filter_eq_nil_iff] at h ⊢
  intro i hi
  exact h i (List.mem_of_mem_filter hi)

theorem store_bool_eq (c : Collection) (p s pt : String) (o : Option String)
    (b : Bool) :
    _store_authentication_bool c p s pt o b
      = c.filter (fun i => i.attrs ≠ noteAttrs p s pt o)
        ++ [noteItemOf p s pt o b] := rfl

theorem set_credential_eq (c : Collection) (p s pt u pw : String)
    (o lbl : Option String) :
    set_credential c p s pt u pw o lbl
      = ((c.filter (fun i => i.attrs ≠ credAttrs p s pt u o)
          ++ [credItemOf p s pt u pw o lbl]).filter
            (fun i => i.attrs ≠ noteAttrs p s pt o))
        ++ [noteItemOf p s pt o true] := rfl

theorem is_req_none_iff (c : Collection) (p s pt : String)
    (o : Option String) :
    is_requiring_authentication c p s pt o = none
      ↔ search_items c (noteAttrs p s pt o) = [] := by
  cases hs : search_items c (noteAttrs p s pt o) with
  | nil => simp [is_requiring_authentication, hs]
  | cons a l =>
    simp only [is_requiring_authentication, hs, List.head?_cons]
    split <;> simp

theorem is_req_after_store_bool (c : Collection) (p s pt : String)
    (o : Option String) (b : Bool)
    (h : search_items c (noteAttrs p s pt o) = []) :
    is_requiring_authentication (_store_authentication_bool c p s pt o b)
      p s pt o = some b := by
  have h1 : search_items (_store_authentication_bool c p s pt o b)
      (noteAttrs p s pt o) = [noteItemOf p s pt o b] := by
    rw [store_bool_eq, search_items_append,
      search_items_filter_nil _ _ _ h]
    simp [search_items, attrsMatch_self, noteItemOf]
  unfold is_requiring_authentication
  rw [h1]
  cases b <;> simp [noteItemOf]

theorem search_note_after_set_credential (c : Collection)
    (p s pt u pw : String) (o lbl : Option String)
    (h : ∀ i ∈ c, attrsMatch i.attrs (noteAttrs p s pt o) = true →
      i.attrs = noteAttrs p s pt o) :
    search_items (set_credential c p s pt u pw o lbl) (noteAttrs p s pt o)
      = [noteItemOf p s pt o true] := by
  rw [set_credential_eq, search_items_append]
  have hLnil : search_items
      ((c.filter (fun i => i.attrs ≠ credAttrs p s pt u o)
        ++ [credItemOf p s pt u pw o lbl]).filter
          (fun i => i.attrs ≠ noteAttrs p s pt o)) (noteAttrs p s pt o)
      = [] := by
    apply search_items_nil_of
    intro i hi
    have hi2 := List.mem_filter.mp hi
    have hne : i.attrs ≠ noteAttrs p s pt o := by simpa using hi2.2
    obtain hmem | hmem := List.mem_append.mp hi2.1
    · have hic := List.mem_of_mem_filter hmem
      cases hm : attrsMatch i.attrs (noteAttrs p s pt o) with
      | false => rfl
      | true => exact absurd (h i hic hm) hne
    · have : i = credItemOf p s pt u pw o lbl := by simpa using hmem
      subst this
      exact attrsMatch_cred_note p s pt u o p s pt o
  rw [hLnil]
  simp [search_items, attrsMatch_self, noteItemOf]

theorem search_cred_after_set_credential (c : Collection)
    (p s pt u pw : String) (o lbl : Option String) :
    search_items (set_credential c p s pt u pw o lbl) (credQuery p s pt o)
      = search_items ((c.filter (fun i => i.attrs ≠ credAttrs p s pt u o)).filter
          (fun i => i.attrs ≠ noteAttrs p s pt o)) (credQuery p s pt o)
        ++ [credItemOf p s pt u pw o lbl] := by
  rw [set_credential_eq]
  have hL : (c.filter (fun i => i.attrs ≠ credAttrs p s pt u o)
        ++ [credItemOf p s pt u pw o lbl]).filter
          (fun i => i.attrs ≠ noteAttrs p s pt o)
      = (c.filter (fun i => i.attrs ≠ credAttrs p s pt u o)).filter
          (fun i => i.attrs ≠ noteAttrs p s pt o)
        ++ [credItemOf p s pt u pw o lbl] := by
    rw [List.filter_append]
    all_goals simp [credItemOf, credAttrs_ne_noteAttrs]
  rw [hL, search_items_append, search_items_append]
  have h1 : search_items [credItemOf p s pt u pw o lbl] (credQuery p s pt o)
      = [credItemOf p s pt u pw o lbl] := by
    simp [search_items, credItemOf, attrsMatch_cred_credQuery]
  have h2 : search_items [noteItemOf p s pt o true] (credQuery p s pt o)
      = [] := by
    simp [search_items, noteItemOf, attrsMatch_note_credQuery]
  rw [h1, h2, List.append_nil]

theorem get_credentials_after_set_credential (c : Collection)
    (p s pt u pw : String) (o lbl : Option String)
    (h : ∀ i ∈ c, attrsMatch i.attrs (noteAttrs p s pt o) = true →
      i.attrs = noteAttrs p s pt o) :
    get_credentials (set_credential c p s pt u pw o lbl) p s pt o
      = .creds ((search_items
          ((c.filter (fun i => i.attrs ≠ credAttrs p s pt u o)).filter
            (fun i => i.attrs ≠ noteAttrs p s pt o)) (credQuery p s pt o)).map
              (fun i => (i.attrs.user.getD "", i.secret))
          ++ [(u, pw)]) := by
  unfold get_credentials
  rw [search_note_after_set_credential c p s pt u pw o lbl h]
  simp only [List.head?_cons]
  rw [search_cred_after_set_credential]
  simp [noteItemOf, credItemOf, credAttrs]

theorem is_req_after_set_credential (c : Collection)
    (p s pt u pw : String) (o lbl : Option String)
    (h : ∀ i ∈ c, attrsMatch i.attrs (noteAttrs p s pt o) = true →
      i.attrs = noteAttrs p s pt o) :
    is_requiring_authentication (set_credential c p s pt u pw o lbl)
      p s pt o = some true := by
  unfold is_requiring_authentication
  rw [search_note_after_set_credential c p s pt u pw o lbl h]
  simp [noteItemOf]

theorem pyEndsWith_append (a b : String) : pyEndsWith (a ++ b) b = true := by
  simp [pyEndsWith, List.isSuffixOf, String.toList]

theorem append_temp_ne_empty (a : String) : a ++ "__TEMP" ≠ "" := by
  intro he
  have h0 : (a ++ "__TEMP").length = 0 := by rw [he]; rfl
  rw [String.length_append] at h0
  have h6 : "__TEMP".length = 6 := rfl
  omega

theorem guard_str (s : String) : (if s ≠ "" then s else "") = s := by
  by_cases h : s = "" <;> simp [h]

theorem guard_port (n : Nat) :
    (if n ≠ 0 then toString n else "0") = toString n := by
  cases n with
  | zero => rfl
  | succ k => simp

theorem filter_not_match_eq_self (c : Collection) (q : Attrs)
    (h : ∀ i ∈ c, attrsMatch i.attrs q = false) :
    c.filter (fun i => ¬ attrsMatch i.attrs q) = c := by
  apply List.filter_eq_self.mpr
  intro i hi
  simp [h i hi]

theorem filter_ne_eq_self (c : Collection) (A : Attrs)
    (h : ∀ i ∈ c, i.attrs ≠ A) :
    c.filter (fun i => i.attrs ≠ A) = c := by
  apply List.filter_eq_self.mpr
  intro i hi
  simp [h i hi]

theorem no_temp_no_match (c : Collection)
    (h : ∀ i ∈ c, i.attrs.protocol ≠ some "temp") (q : Attrs)
    (hq : q.protocol = some "temp") :
    ∀ i ∈ c, attrsMatch i.attrs q = false := by
  intro i hi
  cases hm : attrsMatch i.attrs q with
  | false => rfl
  | true => exact absurd (attrsMatch_protocol hq hm) (h i hi)

theorem updateLoop_already_succeeded (l : List Bool) :
    updateLoop l true = (true, 0) := by
  induction l <;> simp [updateLoop, *]

theorem updateLoop_characterization (l : List Bool) :
    updateLoop l false
      = (l.any id, min l.length ((l.takeWhile (fun b => !b)).length + 1)) := by
  induction l with
  | nil => simp [updateLoop]
  | cons o rest ih =>
    cases o with
    | false =>
      simp only [updateLoop, Bool.false_eq_true, if_false, ih,
        List.any_cons, List.takeWhile_cons, List.length_cons, id,
        Bool.not_false, if_true, Bool.false_or, Prod.mk.injEq]
      exact ⟨trivial, by omega⟩
    | true =>
      simp only [updateLoop, Bool.false_eq_true, if_false,
        updateLoop_already_succeeded, List.any_cons, List.takeWhile_cons,
        List.length_cons, id, Bool.not_true, if_false, Bool.true_or,
        Prod.mk.injEq, List.length_nil]
      exact ⟨trivial, by omega⟩

/-! ## The claims -/

/-- Claim C1: for an identity with at least one stored credential and a
marker file containing `'U'`, the first relay-responder invocation writes
the credential's username to standard output with no trailing newline,
rewrites the marker to `'P'` and exits zero; the second invocation (marker
now `'P'`) writes the password, deletes the marker file and exits zero.
Proved for both relay implementations (the packaged one also on its first
step; its second step is covered by the final conjunct). -/
theorem relay_responder_two_step_handshake (c c₂ : Collection)
    (env : AskpassEnv) (env₂ : AskpassEnv2) (u pw u₂ pw₂ : String)
    (rest rest₂ : List (String × String))
    (h : get_credentials c env.protocol env.server env.port (some env.object)
      = .creds ((u, pw) :: rest))
    (h₂ : get_credentials c₂ env₂.protocol env₂.server env₂.port
      (if env₂.object = "" then none else some env₂.object)
      = .creds ((u₂, pw₂) :: rest₂)) :
    (AutoAskpass.execute c env (some "U")
      = .ok { stdout := u, exitCode := 0, marker := some "P" }) ∧
    (AutoAskpass.execute c env (some "P")
      = .ok { stdout := pw, exitCode := 0, marker := none }) ∧
    (AutoAskpass2.execute c₂ env₂ (some "U")
      = .ok { stdout := u₂, exitCode := 0, marker := some "P",
              store := c₂ }) ∧
    (∃ st, AutoAskpass2.execute c₂ env₂ (some "P")
      = .ok { stdout := pw₂, exitCode := 0, marker := none, store := st }) := by
  simp only [AutoAskpass.execute, AutoAskpass2.execute]
  rw [h, h₂]
  refine ⟨rfl, rfl, rfl, ?_⟩
  have hmc : markerContent "P" = "P" := rfl
  simp only [hmc]
  rw [if_neg (by decide : ¬(("P" : String) = "U"))]
  exact ⟨_, by rw [if_pos trivial]⟩

/-- Witness for C1 at the spec's concrete example: identity
`("git-https","example.org",443,"/r.git")` with stored credential
`("alice","s3cr3t")`. -/
theorem relay_responder_two_step_handshake_witness :
    AutoAskpass.execute
      (set_credential [] "git-https" "example.org" "443" "alice" "s3cr3t"
        (some "/r.git") none)
      { protocol := "git-https", server := "example.org", port := "443",
        object := "/r.git" } (some "U")
      = .ok { stdout := "alice", exitCode := 0, marker := some "P" } :=
  (relay_responder_two_step_handshake
    (set_credential [] "git-https" "example.org" "443" "alice" "s3cr3t"
      (some "/r.git") none)
    (set_credential [] "git-https" "example.org" "443" "alice" "s3cr3t"
      (some "/r.git") none)
    { protocol := "git-https", server := "example.org", port := "443",
      object := "/r.git" }
    { protocol := "git-https", server := "example.org", port := "443",
      object := "/r.git", temporaryCredential := false }
    "alice" "s3cr3t" "alice" "s3cr3t" [] []
    (by decide) (by decide)).1

/-- Claim C2 counterexample: the claim fails as stated.  With an
authentication-fact note for the *same* `(protocol, server, port)` but a
different (nonempty) object recording `False` already in the store, a
`set_credential` under the empty object followed by `get_credentials` on
the same identity returns the `NOT_REQUIRED` sentinel — not a list
containing the just-set pair — because the object-less note query also
matches object-carrying notes and the older `False` note is found first. -/
theorem set_credential_get_cross_object_counterexample :
    (get_credentials
      (set_credential
        [{ label := "lbl",
           attrs := noteAttrs "git-https" "example.org" "443" (some "/x.git"),
           secret := "False" }]
        "git-https" "example.org" "443" "alice" "s3cr3t" none none)
      "git-https" "example.org" "443" none = .notRequired) ∧
    (is_requiring_authentication
      (set_credential
        [{ label := "lbl",
           attrs := noteAttrs "git-https" "example.org" "443" (some "/x.git"),
           secret := "False" }]
        "git-https" "example.org" "443" "alice" "s3cr3t" none none)
      "git-https" "example.org" "443" none = some false) := by
  exact ⟨rfl, rfl⟩

/-- Claim C2, amended: `set_credential` followed by `get_credentials` on
the same identity returns a list containing the just-set pair, and the
Fact is then REQUIRED, *provided* every stored fact note matching the
identity's fact query carries exactly the identity's canonical attribute
record (in particular, when the identity's object is empty, no fact note
for the same protocol/server/port restricted to a specific object is in
the store). -/
theorem set_credential_then_get_credentials (c : Collection)
    (protocol server port user password : String) (objname label : Option String)
    (h : ∀ i ∈ c,
      attrsMatch i.attrs (noteAttrs protocol server port objname) = true →
      i.attrs = noteAttrs protocol server port objname) :
    (∃ l, get_credentials
        (set_credential c protocol server port user password objname label)
        protocol server port objname = .creds l ∧ (user, password) ∈ l) ∧
    is_requiring_authentication
      (set_credential c protocol server port user password objname label)
      protocol server port objname = some true := by
  refine ⟨⟨_, get_credentials_after_set_credential c protocol server port
    user password objname label h, ?_⟩,
    is_req_after_set_credential c protocol server port user password objname
      label h⟩
  exact List.mem_append_right _ (List.mem_singleton.mpr rfl)

/-- Witness for the amended C2 on the empty store. -/
theorem set_credential_then_get_credentials_witness :
    (∃ l, get_credentials
        (set_credential [] "git-https" "example.org" "443" "alice" "s3cr3t"
          (some "/r.git") none)
        "git-https" "example.org" "443" (some "/r.git") = .creds l ∧
        ("alice", "s3cr3t") ∈ l) ∧
    is_requiring_authentication
      (set_credential [] "git-https" "example.org" "443" "alice" "s3cr3t"
        (some "/r.git") none)
      "git-https" "example.org" "443" (some "/r.git") = some true :=
  set_credential_then_get_credentials [] "git-https" "example.org" "443"
    "alice" "s3cr3t" (some "/r.git") none (by simp)

/-- Claim C3: both detectors' `check()` classifies the probe subprocess
outcome in exactly three ways — zero exit yields `false`; a non-zero exit
whose captured output contains the authentication-failure signature yields
`true`; any other non-zero exit re-raises the subprocess error and is
never reported as a boolean. -/
theorem detector_check_trichotomy (remote : String)
    (creds : Option (String × String)) (pr : ProcResult) :
    (pr.returncode = 0 →
      Git._fun remote pr = .ok false ∧ Subversion._fun creds pr = .ok false) ∧
    (pr.returncode ≠ 0 → pyContains pr.output authFailureSignature = true →
      Git._fun remote pr = .ok true ∧ Subversion._fun creds pr = .ok true) ∧
    (pr.returncode ≠ 0 → pyContains pr.output authFailureSignature = false →
      Git._fun remote pr = .error (.calledProcessError pr.returncode
        ["git", "remote", "show", remote] pr.output) ∧
      Subversion._fun creds pr = .error (.calledProcessError pr.returncode
        (Subversion.sanitizedCommand creds) pr.output)) := by
  refine ⟨fun h0 => ?_, fun hne hsig => ?_, fun hne hsig => ?_⟩ <;>
    simp [Git._fun, Subversion._fun, *]

/-- Witness for C3: an authentication-failure output is classified `true`
for both detectors. -/
theorem detector_check_trichotomy_witness :
    Git._fun "origin"
      { returncode := 128, output := "fatal: Authentication failed for url" }
      = .ok true ∧
    Subversion._fun none
      { returncode := 1, output := "svn: E170001: Authentication failed" }
      = .ok true := by
  have h1 := detector_check_trichotomy "origin" none
    { returncode := 128, output := "fatal: Authentication failed for url" }
  have h2 := detector_check_trichotomy "origin" none
    { returncode := 1, output := "svn: E170001: Authentication failed" }
  exact ⟨(h1.2.1 (by decide) (by decide)).1, (h2.2.1 (by decide) (by decide)).2⟩

/-- Claim C4: for a remote whose stored Fact is UNKNOWN, when the
detector's `check()` returns `false` the loop persists NOT_REQUIRED for
the remote's identity, marks the remote ready for update (`can_update`,
and selection into the update data for keyring-backend remotes), and
reaches no credential prompt. -/
theorem unknown_fact_probe_not_required_persists (daemon : Bool)
    (c : Collection) (r : RemoteSpec)
    (hfact : is_requiring_authentication c r.parts.protocol r.parts.server
      (toString r.parts.port) r.parts.objname = none)
    (hcheck : r.check = .ok false) :
    processRemote daemon c r = .ok
      { keyring := set_unauthenticated c r.parts.protocol r.parts.server
          (toString r.parts.port) r.parts.objname,
        selected := r.backend = some Backend.keyring,
        canUpdate := true,
        prompted := false } ∧
    is_requiring_authentication
      (set_unauthenticated c r.parts.protocol r.parts.server
        (toString r.parts.port) r.parts.objname)
      r.parts.protocol r.parts.server (toString r.parts.port)
      r.parts.objname = some false := by
  have hnil := (is_req_none_iff c r.parts.protocol r.parts.server
    (toString r.parts.port) r.parts.objname).mp hfact
  refine ⟨?_, is_req_after_store_bool c r.parts.protocol r.parts.server
    (toString r.parts.port) r.parts.objname false hnil⟩
  by_cases hb : r.backend = some Backend.keyring <;>
    simp [processRemote, processRemoteBackend, checkOf, hfact, hb, hcheck,
      set_unauthenticated]

/-- Witness for C4 on the empty store with a keyring-backend remote. -/
theorem unknown_fact_probe_not_required_persists_witness :
    processRemote false []
      { name := "origin", url := "https://example.org/r.git",
        parts := { protocol := "git-https", server := "example.org",
                   port := 443, objname := some "/r.git" },
        backend := some Backend.keyring, check := .ok false,
        promptUser := "u", promptPassword := "p", validate := .ok true }
      = .ok
      { keyring := set_unauthenticated [] "git-https" "example.org"
          (toString 443) (some "/r.git"),
        selected := true, canUpdate := true, prompted := false } ∧
    is_requiring_authentication
      (set_unauthenticated [] "git-https" "example.org" (toString 443)
        (some "/r.git"))
      "git-https" "example.org" (toString 443) (some "/r.git")
      = some false :=
  unknown_fact_probe_not_required_persists false []
    { name := "origin", url := "https://example.org/r.git",
      parts := { protocol := "git-https", server := "example.org",
                 port := 443, objname := some "/r.git" },
      backend := some Backend.keyring, check := .ok false,
      promptUser := "u", promptPassword := "p", validate := .ok true }
    (by decide) rfl

/-- Claim C5: for a remote whose Fact is UNKNOWN, when the detector raises
an unexpected subprocess failure the loop catches it, persists no Fact
(the store is returned unchanged), does not select the remote, and
processing continues with the remaining remotes and repositories exactly
as if this remote were absent. -/
theorem unknown_fact_probe_error_skips_remote (daemon : Bool)
    (c : Collection) (r : RemoteSpec) (rest : List RemoteSpec)
    (repos : List (List RemoteSpec)) (rc : Int) (cmd : List String)
    (out : String)
    (hfact : is_requiring_authentication c r.parts.protocol r.parts.server
      (toString r.parts.port) r.parts.objname = none)
    (hb : r.backend = some Backend.keyring)
    (hcheck : r.check = .error (.calledProcessError rc cmd out)) :
    processRemote daemon c r = .ok
      { keyring := c, selected := false, canUpdate := false,
        prompted := false } ∧
    processRemotes daemon c (r :: rest) = processRemotes daemon c rest ∧
    processRepos daemon c ((r :: rest) :: repos)
      = processRepos daemon c (rest :: repos) := by
  have h1 : processRemote daemon c r = .ok
      { keyring := c, selected := false, canUpdate := false,
        prompted := false } := by
    simp [processRemote, checkOf, hfact, hb, hcheck]
  have h2 : processRemotes daemon c (r :: rest)
      = processRemotes daemon c rest := by
    simp only [processRemotes, h1]
    cases h3 : processRemotes daemon c rest with
    | error e => rfl
    | ok p => simp
  exact ⟨h1, h2, by simp only [processRepos, h2]⟩

/-- Witness for C5 on the empty store with a failing probe. -/
theorem unknown_fact_probe_error_skips_remote_witness :
    processRemote false []
      { name := "origin", url := "https://example.org/r.git",
        parts := { protocol := "git-https", server := "example.org",
                   port := 443, objname := some "/r.git" },
        backend := some Backend.keyring,
        check := .error (.calledProcessError 128
          ["git", "remote", "show", "origin"] "fatal: could not resolve host"),
        promptUser := "u", promptPassword := "p", validate := .ok true }
      = .ok { keyring := [], selected := false, canUpdate := false,
              prompted := false } ∧
    processRemotes false []
      [{ name := "origin", url := "https://example.org/r.git",
         parts := { protocol := "git-https", server := "example.org",
                    port := 443, objname := some "/r.git" },
         backend := some Backend.keyring,
         check := .error (.calledProcessError 128
           ["git", "remote", "show", "origin"] "fatal: could not resolve host"),
         promptUser := "u", promptPassword := "p", validate := .ok true }]
      = processRemotes false [] [] ∧
    processRepos false []
      [[{ name := "origin", url := "https://example.org/r.git",
          parts := { protocol := "git-https", server := "example.org",
                     port := 443, objname := some "/r.git" },
          backend := some Backend.keyring,
          check := .error (.calledProcessError 128
            ["git", "remote", "show", "origin"] "fatal: could not resolve host"),
          promptUser := "u", promptPassword := "p", validate := .ok true }]]
      = processRepos false [] [[]] :=
  unknown_fact_probe_error_skips_remote false []
    { name := "origin", url := "https://example.org/r.git",
      parts := { protocol := "git-https", server := "example.org",
                 port := 443, objname := some "/r.git" },
      backend := some Backend.keyring,
      check := .error (.calledProcessError 128
        ["git", "remote", "show", "origin"] "fatal: could not resolve host"),
      promptUser := "u", promptPassword := "p", validate := .ok true }
    [] [] 128 ["git", "remote", "show", "origin"]
    "fatal: could not resolve host" (by decide) rfl rfl

/-- Claim C6: constructing a username-password checker (Git or Subversion)
with exactly one of username and password set fails with a `ValueError`
(the spec taxonomy's `InvalidArgumentError`); constructing it with both
set or with neither set succeeds. -/
theorem checker_requires_both_or_neither (username password : Option String) :
    ((username = none ↔ password = none) →
      (∃ ck, Git.mkUsernamePasswordAuthenticationChecker username password
        = .ok ck) ∧
      (∃ ck, Subversion.mkUsernamePasswordAuthenticationChecker username
        password = .ok ck)) ∧
    (¬(username = none ↔ password = none) →
      (∃ msg, Git.mkUsernamePasswordAuthenticationChecker username password
        = .error (.valueError msg)) ∧
      (∃ msg, Subversion.mkUsernamePasswordAuthenticationChecker username
        password = .error (.valueError msg))) := by
  cases username <;> cases password <;>
    simp [Git.mkUsernamePasswordAuthenticationChecker,
      Subversion.mkUsernamePasswordAuthenticationChecker]

/-- Witness for C6: a username without a password is rejected by both
checkers. -/
theorem checker_requires_both_or_neither_witness :
    (∃ msg, Git.mkUsernamePasswordAuthenticationChecker (some "alice") none
      = .error (.valueError msg)) ∧
    (∃ msg, Subversion.mkUsernamePasswordAuthenticationChecker (some "alice")
      none = .error (.valueError msg)) :=
  (checker_requires_both_or_neither (some "alice") none).2 (by decide)

/-- Claim C7 counterexample: the claim fails as stated on the
no-credential path.  When the helper is invoked and no credential is found
for the identity, both relay implementations print the `invalid` sentinel
and exit *without touching the marker file*: the marker file is left
behind (still containing `'U'`), not removed. -/
theorem relay_not_found_leaves_marker_counterexample :
    (AutoAskpass.execute []
      { protocol := "git-https", server := "example.org", port := "443",
        object := "/r.git" } (some "U")
      = .ok { stdout := "invalid\n", exitCode := 1, marker := some "U" }) ∧
    (AutoAskpass2.execute []
      { protocol := "git-https", server := "example.org", port := "443",
        object := "/r.git", temporaryCredential := false } (some "U")
      = .ok { stdout := "invalid\n", exitCode := 0, marker := some "U",
              store := [] }) := by
  exact ⟨rfl, rfl⟩

/-- Claim C7, amended: whenever the final (`'P'`) handshake step completes
— the marker file reads `'P'` and a credential is found — the marker file
is removed by both relay implementations.  On the no-credential path,
however, the helper exits leaving the marker file in place (see the
counterexample): the removal is not unconditional. -/
theorem relay_marker_removed_on_final_step (c c₂ : Collection)
    (env : AskpassEnv) (env₂ : AskpassEnv2) (m m₂ : String)
    (u pw u₂ pw₂ : String) (rest rest₂ : List (String × String))
    (h : get_credentials c env.protocol env.server env.port (some env.object)
      = .creds ((u, pw) :: rest))
    (hm : markerContent m = "P")
    (h₂ : get_credentials c₂ env₂.protocol env₂.server env₂.port
      (if env₂.object = "" then none else some env₂.object)
      = .creds ((u₂, pw₂) :: rest₂))
    (hm₂ : markerContent m₂ = "P") :
    AutoAskpass.execute c env (some m)
      = .ok { stdout := pw, exitCode := 0, marker := none } ∧
    ∃ st, AutoAskpass2.execute c₂ env₂ (some m₂)
      = .ok { stdout := pw₂, exitCode := 0, marker := none, store := st } := by
  simp only [AutoAskpass.execute, AutoAskpass2.execute]
  rw [h, h₂]
  refine ⟨by simp [hm], ?_⟩
  simp only [hm₂]
  rw [if_neg (by decide : ¬("P" = "U"))]
  exact ⟨_, by rw [if_pos trivial]⟩

/-- Witness for the amended C7 with a stored credential and marker `'P'`. -/
theorem relay_marker_removed_on_final_step_witness :
    AutoAskpass.execute
      (set_credential [] "git-https" "example.org" "443" "alice" "s3cr3t"
        (some "/r.git") none)
      { protocol := "git-https", server := "example.org", port := "443",
        object := "/r.git" } (some "P")
      = .ok { stdout := "s3cr3t", exitCode := 0, marker := none } :=
  (relay_marker_removed_on_final_step
    (set_credential [] "git-https" "example.org" "443" "alice" "s3cr3t"
      (some "/r.git") none)
    (set_credential [] "git-https" "example.org" "443" "alice" "s3cr3t"
      (some "/r.git") none)
    { protocol := "git-https", server := "example.org", port := "443",
      object := "/r.git" }
    { protocol := "git-https", server := "example.org", port := "443",
      object := "/r.git", temporaryCredential := false }
    "P" "P" "alice" "s3cr3t" "alice" "s3cr3t" [] []
    (by decide) (by decide) (by decide) (by decide)).1

/-- Claim C8: an ephemeral-credential relay session — `create_with_credentials`
followed by the two handshake steps — prints the username then the
password, and after the final step the synthetic store entry is gone: the
store is restored to its initial state and `get_credentials` on the
synthetic identity answers UNKNOWN.  The hypothesis says the real store
holds no entry under the reserved synthetic protocol `temp`. -/
theorem ephemeral_credential_session_cleans_store (c : Collection)
    (username password host objname : String) (port : Nat)
    (h : ∀ i ∈ c, i.attrs.protocol ≠ some "temp") :
    ∃ r1 r2,
      AutoAskpass2.execute
        (create_with_credentials c username password host port objname).1
        (create_with_credentials c username password host port objname).2.1
        (create_with_credentials c username password host port objname).2.2
        = .ok r1 ∧
      r1.stdout = username ∧
      AutoAskpass2.execute r1.store
        (create_with_credentials c username password host port objname).2.1
        r1.marker = .ok r2 ∧
      r2.stdout = password ∧
      r2.store = c ∧
      get_credentials r2.store "temp" host (toString port)
        (some (objname ++ "__TEMP")) = .unknown := by
  have hobjne := append_temp_ne_empty objname
  have hcw : create_with_credentials c username password host port objname
      = (set_credential c "temp" host (toString port) username password
          (some (objname ++ "__TEMP"))
          (some "Temporary password for Sync-Repos ASKPASS"),
        { protocol := "temp", server := host, port := toString port,
          object := objname ++ "__TEMP", temporaryCredential := true },
        some "U") := by
    simp only [create_with_credentials, AutoAskpass2.create]
    simp only [guard_str, guard_port, hobjne, if_neg hobjne]
  have hvac : ∀ i ∈ c, attrsMatch i.attrs
      (noteAttrs "temp" host (toString port) (some (objname ++ "__TEMP")))
        = true →
      i.attrs = noteAttrs "temp" host (toString port)
        (some (objname ++ "__TEMP")) := by
    intro i hi hm
    exact absurd (attrsMatch_protocol rfl hm) (h i hi)
  have hjunk : search_items
      ((c.filter (fun i => i.attrs ≠ credAttrs "temp" host (toString port)
          username (some (objname ++ "__TEMP")))).filter
        (fun i => i.attrs ≠ noteAttrs "temp" host (toString port)
          (some (objname ++ "__TEMP"))))
      (credQuery "temp" host (toString port) (some (objname ++ "__TEMP")))
      = [] := by
    apply search_items_nil_of
    intro i hi
    have hic : i ∈ c := List.mem_of_mem_filter (List.mem_of_mem_filter hi)
    exact no_temp_no_match c h _ rfl i hic
  have hget : get_credentials
      (set_credential c "temp" host (toString port) username password
        (some (objname ++ "__TEMP"))
        (some "Temporary password for Sync-Repos ASKPASS"))
      "temp" host (toString port) (some (objname ++ "__TEMP"))
      = .creds [(username, password)] := by
    rw [get_credentials_after_set_credential _ _ _ _ _ _ _ _ hvac, hjunk]
    simp
  have hifobj : (if (objname ++ "__TEMP") = "" then (none : Option String)
      else some (objname ++ "__TEMP")) = some (objname ++ "__TEMP") := by
    simp [hobjne]
  have hfc : ∀ (A : Attrs), A.protocol = some "temp" →
      c.filter (fun i => i.attrs ≠ A) = c := by
    intro A hA
    apply filter_ne_eq_self
    intro i hi he
    apply h i hi
    rw [he, hA]
  have hdelq : ∀ (X : Collection),
      delete_server X "temp" host (toString port)
        = (X.filter (fun i => ¬ attrsMatch i.attrs
            (serverCredQuery "temp" host (toString port)))).filter
          (fun i => ¬ attrsMatch i.attrs
            (serverNoteQuery "temp" host (toString port))) :=
    fun X => rfl
  have hcrednote : ([credItemOf "temp" host (toString port) username
      password (some (objname ++ "__TEMP"))
      (some "Temporary password for Sync-Repos ASKPASS")]).filter
        (fun i => i.attrs ≠ noteAttrs "temp" host (toString port)
          (some (objname ++ "__TEMP")))
      = [credItemOf "temp" host (toString port) username password
          (some (objname ++ "__TEMP"))
          (some "Temporary password for Sync-Repos ASKPASS")] := by
    simp [credItemOf, credAttrs_ne_noteAttrs]
  have hdel : delete_server
      (set_credential c "temp" host (toString port) username password
        (some (objname ++ "__TEMP"))
        (some "Temporary password for Sync-Repos ASKPASS"))
      "temp" host (toString port) = c := by
    have hL : ((c.filter (fun i => i.attrs ≠ credAttrs "temp" host
          (toString port) username (some (objname ++ "__TEMP"))))
          ++ [credItemOf "temp" host (toString port) username password
            (some (objname ++ "__TEMP"))
            (some "Temporary password for Sync-Repos ASKPASS")]).filter
        (fun i => i.attrs ≠ noteAttrs "temp" host (toString port)
          (some (objname ++ "__TEMP")))
        = c ++ [credItemOf "temp" host (toString port) username password
            (some (objname ++ "__TEMP"))
            (some "Temporary password for Sync-Repos ASKPASS")] := by
      rw [hfc _ rfl, List.filter_append, hfc _ rfl, hcrednote]
    rw [hdelq, set_credential_eq, hL]
    have s1 : (c ++ [credItemOf "temp" host (toString port) username password
          (some (objname ++ "__TEMP"))
          (some "Temporary password for Sync-Repos ASKPASS")]).filter
        (fun i => ¬ attrsMatch i.attrs
          (serverCredQuery "temp" host (toString port))) = c := by
      rw [List.filter_append, filter_not_match_eq_self c
        (serverCredQuery "temp" host (toString port))
        (no_temp_no_match c h _ rfl)]
      simp [credItemOf, attrsMatch_cred_serverCredQuery]
    have s2 : ([noteItemOf "temp" host (toString port)
        (some (objname ++ "__TEMP")) true]).filter
          (fun i => ¬ attrsMatch i.attrs
            (serverCredQuery "temp" host (toString port)))
        = [noteItemOf "temp" host (toString port)
            (some (objname ++ "__TEMP")) true] := by
      simp [noteItemOf, attrsMatch_note_serverCredQuery]
    have s3 : ([noteItemOf "temp" host (toString port)
        (some (objname ++ "__TEMP")) true]).filter
          (fun i => ¬ attrsMatch i.attrs
            (serverNoteQuery "temp" host (toString port))) = [] := by
      simp [noteItemOf, attrsMatch_note_serverNoteQuery]
    rw [List.filter_append, s1, s2, List.filter_append,
      filter_not_match_eq_self c (serverNoteQuery "temp" host (toString port))
        (no_temp_no_match c h _ rfl),
      s3, List.append_nil]
  have hunknown : get_credentials c "temp" host (toString port)
      (some (objname ++ "__TEMP")) = .unknown := by
    unfold get_credentials
    rw [search_items_nil_of c _ (no_temp_no_match c h _ rfl)]
    rfl
  refine ⟨⟨username, 0, some "P",
      set_credential c "temp" host (toString port) username password
        (some (objname ++ "__TEMP"))
        (some "Temporary password for Sync-Repos ASKPASS")⟩,
    ⟨password, 0, none, c⟩, ?_, rfl, ?_, rfl, rfl, hunknown⟩
  · rw [hcw]
    simp only [AutoAskpass2.execute]
    rw [hifobj, hget]
    rfl
  · rw [hcw]
    simp only [AutoAskpass2.execute]
    rw [hifobj, hget]
    have hmc : markerContent "P" = "P" := rfl
    simp [hdel, pyEndsWith_append, hmc]

/-- Witness for C8 on the empty store with `("bob","pw")`. -/
theorem ephemeral_credential_session_cleans_store_witness :
    ∃ r1 r2,
      AutoAskpass2.execute
        (create_with_credentials [] "bob" "pw" "example.org" 443 "/r.git").1
        (create_with_credentials [] "bob" "pw" "example.org" 443 "/r.git").2.1
        (create_with_credentials [] "bob" "pw" "example.org" 443 "/r.git").2.2
        = .ok r1 ∧
      r1.stdout = "bob" ∧
      AutoAskpass2.execute r1.store
        (create_with_credentials [] "bob" "pw" "example.org" 443 "/r.git").2.1
        r1.marker = .ok r2 ∧
      r2.stdout = "pw" ∧
      r2.store = [] ∧
      get_credentials r2.store "temp" "example.org" (toString 443)
        (some ("/r.git" ++ "__TEMP")) = .unknown :=
  ephemeral_credential_session_cleans_store [] "bob" "pw" "example.org"
    "/r.git" 443 (by simp)

/-- Claim C9 counterexample: the claim fails as stated.  With two stored
credentials whose updates would both succeed, the update loop invokes the
updater only once — Python's short-circuiting
`update_success = update_success or updater.update()` skips the call once
a success is recorded — not once per stored credential. -/
theorem update_loop_short_circuit_counterexample :
    updateRemote (.creds [("a", "x"), ("b", "y")])
      (fun _ => Git.update { returncode := 0, output := "" }) = (true, 1) ∧
    ([("a", "x"), ("b", "y")] : List (String × String)).length = 2 ∧
    (1 : Nat) ≠ 2 := by
  exact ⟨rfl, rfl, by decide⟩

/-- Claim C9, amended: the update phase iterates over the stored
credentials (or a single empty placeholder when the lookup is falsy), but
invokes the updater only until the first success: the number of
invocations is the position of the first successful outcome (or the whole
list when none succeeds), and the remote is reported updated exactly when
some credential's update subprocess exits zero — which coincides with
\"some attempted invocation returned true\". -/
theorem update_loop_success_iff_any (stored : GetCredentialsResult)
    (proc : Option String × Option String → ProcResult) :
    updateRemote stored (fun cr => Git.update (proc cr))
      = (let outs : List Bool :=
          ((match stored with
            | GetCredentialsResult.creds (cred :: rest) =>
              ((cred :: rest).map
                (fun cr : String × String => (some cr.1, some cr.2)))
            | _ => ([(none, none)] :
                List (Option String × Option String)))).map
            (fun cr => Git.update (proc cr))
         (outs.any id,
           min outs.length ((outs.takeWhile (fun b => !b)).length + 1))) := by
  unfold updateRemote
  exact updateLoop_characterization _

/-- Claim C10: `delete_credential` never completes a deletion.  When no
matching credential item exists it raises `KeyError`; when one or more
exist it raises `TypeError` — `next()` applied to a Python list — before
deleting anything.  No call returns normally. -/
theorem delete_credential_never_deletes (c : Collection)
    (protocol server port user : String) (objname : Option String) :
    (search_items c (credAttrs protocol server port user objname) = [] →
      delete_credential c protocol server port user objname
        = .error (.keyError ("No secret found for " ++ protocol ++ ":"
          ++ server ++ ":" ++ port ++ ":" ++ user))) ∧
    (search_items c (credAttrs protocol server port user objname) ≠ [] →
      delete_credential c protocol server port user objname
        = .error (.typeError "'list' object is not an iterator")) ∧
    (∀ c', delete_credential c protocol server port user objname ≠ .ok c') := by
  cases hs : search_items c (credAttrs protocol server port user objname) with
  | nil => simp [delete_credential, hs]
  | cons a l => simp [delete_credential, hs]

/-- Witness for C10: both error paths at concrete stores — `KeyError` on
the empty store, `TypeError` when the matching credential exists. -/
theorem delete_credential_never_deletes_witness :
    delete_credential [] "git-https" "example.org" "443" "alice"
      (some "/r.git")
      = .error (.keyError "No secret found for git-https:example.org:443:alice") ∧
    delete_credential
      (set_credential [] "git-https" "example.org" "443" "alice" "s3cr3t"
        (some "/r.git") none)
      "git-https" "example.org" "443" "alice" (some "/r.git")
      = .error (.typeError "'list' object is not an iterator") :=
  ⟨(delete_credential_never_deletes [] "git-https" "example.org" "443"
      "alice" (some "/r.git")).1 (by decide),
   (delete_credential_never_deletes
      (set_credential [] "git-https" "example.org" "443" "alice" "s3cr3t"
        (some "/r.git") none)
      "git-https" "example.org" "443" "alice" (some "/r.git")).2.1
    (by decide)⟩
